import Mathlib

/-!
# Stockflow — verification of the inventory-management API

Shallow embedding of the two request handlers of `src/app.py`
(`create_product` and `get_low_stock_alerts`) over the relational schema of
`src/models.py`, together with theorems settling the specification claims.

Conventions of the embedding:
* Database integers (`id`, `quantity`, `change_amount`, …) are `ℤ`.
* `Numeric` money values go through Python's `Decimal`, modelled by `PyDec`
  (an exact rational plus the special values NaN / ±Infinity).
* Timestamps are `ℤ`, measured in days, and "now" is an explicit parameter;
  the 30-day lookback window is `created_at ≥ now - 30`.
* JSON scalar values arriving in a request body are `PyVal`
  (number / string / boolean / null); `PyVal.plain` names the fragment
  (ASCII strings, integral numbers) the parse model captures exactly.
* The float arithmetic of the burn-rate projection (lines 93-94) is
  emulated exactly: `F64` values are integer mantissa/exponent pairs and
  division rounds to nearest/ties-even at 53 bits.
* The only fallible persistence step is `db.session.commit()`; an injected
  `fault : Option String` plays the part of an unexpected exception raised
  there (`some msg` carries the exception's message).  The foreign-key
  check on `warehouse_id` is the deterministic failure used by the spec's
  own example of a failing inventory insert.
-/

/-! ## Python value and error model -/

/-- A JSON scalar as Python sees it after `request.json` parsing. -/
inductive PyVal where
  | num (q : ℚ)
  | str (s : String)
  | bool (b : Bool)
  | null
deriving DecidableEq, Repr

/-- The Python exception classes relevant to `create_product`. -/
inductive PyErr where
  | invalidOperation
  | valueError
  | typeError
deriving DecidableEq, Repr

/-- Outcome of a fallible Python expression. -/
inductive PyRes (α : Type) where
  | ok (a : α)
  | exc (e : PyErr)
deriving DecidableEq, Repr

/-- A `decimal.Decimal` value: an exact rational, or one of the special
values NaN / Infinity / -Infinity that `Decimal` also parses. -/
inductive PyDec where
  | fin (q : ℚ)
  | nan
  | inf
  | negInf
deriving DecidableEq, Repr

/-- Python `d < 0` on a `Decimal`: comparing a (quiet or signaling) NaN
raises `InvalidOperation`, while the infinities compare normally
(`Decimal("Infinity") < 0` is `False`, `Decimal("-Infinity") < 0` is
`True`). -/
def PyDec.lt0 : PyDec → PyRes Bool
  | .fin q => .ok (decide (q < 0))
  | .nan => .exc .invalidOperation
  | .inf => .ok false
  | .negInf => .ok true

/-- The whitespace `int(str)` strips: the ASCII characters
`\t \n \v \f \r` and space (`Py_ISSPACE`). -/
def pyIntSpace (c : Char) : Bool :=
  (9 ≤ c.toNat ∧ c.toNat ≤ 13) ∨ c = ' '

/-- The whitespace `Decimal(str)` strips: `int`'s set plus the ASCII
separator controls `\x1c`-`\x1f` (`Py_UNICODE_ISSPACE`, ASCII fragment). -/
def pyDecSpace (c : Char) : Bool :=
  pyIntSpace c ∨ (28 ≤ c.toNat ∧ c.toNat ≤ 31)

/-- Strip leading and trailing characters satisfying `p`. -/
def trimBy (p : Char → Bool) (cs : List Char) : List Char :=
  ((cs.dropWhile p).reverse.dropWhile p).reverse

/-- Digit string to a natural number (`cs` assumed to be decimal digits). -/
def natOfDigits (cs : List Char) : ℕ :=
  cs.foldl (fun a c => 10 * a + (c.toNat - 48)) 0

/-- After the first digit of an `int()` literal: digits, with single
underscores allowed only between digits (`1_0` parses, `1__0`, `1_`,
`_1` do not). -/
def underscoredTail : List Char → Bool
  | [] => true
  | '_' :: c :: rest => c.isDigit && underscoredTail rest
  | c :: rest => c.isDigit && underscoredTail rest

/-- A nonempty digit group in `int()`'s grammar: starts with a digit,
underscores strictly between digits. -/
def isDigitsU (cs : List Char) : Bool :=
  match cs with
  | [] => false
  | c :: rest => c.isDigit && underscoredTail rest

/-- Remove the grouping underscores before reading the digits. -/
def dropUnderscores (cs : List Char) : List Char :=
  cs.filter (fun c => c ≠ '_')

/-- Parse `sign? digits` with underscore grouping, as Python `int(str)`
after whitespace stripping. -/
def parseSignedInt (cs : List Char) : Option ℤ :=
  match cs with
  | '-' :: r => if isDigitsU r then some (-(natOfDigits (dropUnderscores r) : ℤ)) else none
  | '+' :: r => if isDigitsU r then some (natOfDigits (dropUnderscores r) : ℤ) else none
  | r => if isDigitsU r then some (natOfDigits (dropUnderscores r) : ℤ) else none

/-- Parse the optional exponent tail of a decimal literal: empty means
exponent 0, otherwise `e`/`E` followed by a signed integer. -/
def parseExpTail (cs : List Char) : Option ℤ :=
  match cs with
  | [] => some 0
  | 'e' :: r => parseSignedInt r
  | 'E' :: r => parseSignedInt r
  | _ => none

/-- Scale a rational by a signed power of ten. -/
def scalePow10 (q : ℚ) (e : ℤ) : ℚ :=
  if 0 ≤ e then q * (10 : ℚ) ^ e.toNat else q / (10 : ℚ) ^ (-e).toNat

/-- Parse an unsigned decimal numeric literal
`digits ['.' digits?] [exp]` or `'.' digits [exp]`, per the `Decimal`
grammar. -/
def parseUnsignedDec (cs : List Char) : Option ℚ :=
  let ip := cs.takeWhile Char.isDigit
  let r1 := cs.drop ip.length
  match r1 with
  | '.' :: r2 =>
    let fp := r2.takeWhile Char.isDigit
    let r3 := r2.drop fp.length
    if ip = [] ∧ fp = [] then none
    else
      match parseExpTail r3 with
      | some e => some (scalePow10 ((natOfDigits (ip ++ fp) : ℚ) / (10 : ℚ) ^ fp.length) e)
      | none => none
  | _ =>
    if ip = [] then none
    else
      match parseExpTail r1 with
      | some e => some (scalePow10 (natOfDigits ip : ℚ) e)
      | none => none

/-- `Decimal(s)` on a string: strips whitespace, then removes every
underscore (`Decimal` drops them anywhere, unlike `int`), accepts an
optional sign followed by a case-insensitive `nan` / `snan` (with an
optional digit payload; quiet and signaling NaN are collapsed, both
raising on comparison), `inf` / `infinity`, or a numeric literal; raises
`InvalidOperation` otherwise. -/
def pyDecOfString (s : String) : PyRes PyDec :=
  let t := dropUnderscores (trimBy pyDecSpace (s.toList.map Char.toLower))
  let (neg, core) :=
    match t with
    | '-' :: r => (true, r)
    | '+' :: r => (false, r)
    | r => (false, r)
  if core.take 3 = ['n', 'a', 'n'] ∧ (core.drop 3).all Char.isDigit then .ok .nan
  else if core.take 4 = ['s', 'n', 'a', 'n'] ∧ (core.drop 4).all Char.isDigit then .ok .nan
  else if core = ['i', 'n', 'f'] ∨ core = ['i', 'n', 'f', 'i', 'n', 'i', 't', 'y'] then
    .ok (if neg then .negInf else .inf)
  else
    match parseUnsignedDec core with
    | some q => .ok (.fin (if neg then -q else q))
    | none => .exc .invalidOperation

/-- `Decimal(str(v))` as `create_product` performs it: numbers round-trip
through `str`, strings are parsed by the `Decimal` grammar, and
`str(True) = "True"`, `str(None) = "None"` fail to parse. -/
def pyDec : PyVal → PyRes PyDec
  | .num q => .ok (.fin q)
  | .str s => pyDecOfString s
  | .bool _ => .exc .invalidOperation
  | .null => .exc .invalidOperation

/-- Truncation toward zero, as Python `int()` applied to a number. -/
def pyTrunc (q : ℚ) : ℤ :=
  if 0 ≤ q then ⌊q⌋ else ⌈q⌉

/-- Python `int(v)`: numbers truncate toward zero, booleans give 0/1,
strings must be (whitespace-stripped) integer literals or raise
`ValueError`, and `None` raises `TypeError` (which `create_product`'s
`except (InvalidOperation, ValueError)` does NOT catch). -/
def pyInt : PyVal → PyRes ℤ
  | .num q => .ok (pyTrunc q)
  | .bool b => .ok (if b then 1 else 0)
  | .str s =>
    match parseSignedInt (trimBy pyIntSpace s.toList) with
    | some z => .ok z
    | none => .exc .valueError
  | .null => .exc .typeError

/-- The fragment of Python's value space this embedding models exactly:
ASCII strings (Python's `int()` and `Decimal()` additionally accept
Unicode digits and Unicode whitespace) and integral JSON numbers (Flask
parses an integer literal to a Python `int`, which `str`/`int()`
round-trip exactly; non-integral literals pass through IEEE doubles,
whose shortest-repr round-trips this embedding does not model). -/
def PyVal.plain : PyVal → Prop
  | .str s => ∀ c ∈ s.data, c.toNat < 128
  | .num q => q.den = 1
  | .bool _ => True
  | .null => True

instance (v : PyVal) : Decidable v.plain := by
  unfold PyVal.plain
  cases v <;> infer_instance

/-! ## Relational schema (`src/models.py`) -/

/-- `products` table row. -/
structure Product where
  id : ℤ
  company_id : ℤ
  name : String
  sku : String
  price : PyDec
  low_stock_threshold : ℤ
  primary_supplier_id : Option ℤ
deriving DecidableEq, Repr

/-- `inventory` table row (composite key `product_id, warehouse_id`). -/
structure Inventory where
  product_id : ℤ
  warehouse_id : ℤ
  quantity : ℤ
deriving DecidableEq, Repr

/-- `warehouses` table row. -/
structure Warehouse where
  id : ℤ
  company_id : ℤ
  name : String
deriving DecidableEq, Repr

/-- `suppliers` table row. -/
structure Supplier where
  id : ℤ
  company_id : ℤ
  name : String
  contact_email : Option String
deriving DecidableEq, Repr

/-- `inventory_transactions` table row (append-only ledger). -/
structure Txn where
  id : ℤ
  product_id : ℤ
  warehouse_id : ℤ
  change_amount : ℤ
  reason : String
  created_at : ℤ
deriving DecidableEq, Repr

/-- The database state: the five tables the handlers touch, plus the
autoincrement counter that `db.session.flush()` draws product ids from. -/
structure DB where
  products : List Product
  inventories : List Inventory
  warehouses : List Warehouse
  suppliers : List Supplier
  transactions : List Txn
  nextProductId : ℤ
deriving DecidableEq, Repr

/-! ## `create_product` (POST /api/products) -/

/-- The request body fields that `create_product` reads.  `name`, `sku`,
`warehouse_id` and `company_id` are used verbatim (modelled at their
column types); `price` and `initial_quantity` go through Python numeric
conversion, so they keep the raw JSON scalar. -/
structure Req where
  name : Option String
  sku : Option String
  price : Option PyVal
  warehouse_id : Option ℤ
  initial_quantity : Option PyVal
  company_id : Option ℤ
deriving DecidableEq, Repr

/-- A response body produced by `create_product`'s `jsonify` calls. -/
inductive CreateBody where
  | err (msg : String)
  | created (message : String) (product_id : ℤ)
deriving DecidableEq, Repr

/-- Outcome of a `create_product` call: an HTTP response together with the
committed database state, or an exception that escaped the handler
(the parse-phase `TypeError` is not caught by any `except` clause). -/
inductive CreateResult where
  | resp (status : ℕ) (body : CreateBody) (db : DB)
  | uncaught (e : PyErr) (db : DB)
deriving DecidableEq, Repr

/-- The committed database state after a `create_product` call. -/
def CreateResult.db : CreateResult → DB
  | .resp _ _ d => d
  | .uncaught _ d => d

/-- The HTTP status of a `create_product` call, when a response was built. -/
def CreateResult.isStatus (r : CreateResult) (n : ℕ) : Prop :=
  match r with
  | .resp s _ _ => s = n
  | .uncaught _ _ => False

instance (r : CreateResult) (n : ℕ) : Decidable (r.isStatus n) := by
  unfold CreateResult.isStatus
  cases r <;> infer_instance

/-- Message of the `IntegrityError` raised when committing an `inventory`
row whose `warehouse_id` violates the foreign key. -/
def fkViolationMsg (wid : ℤ) : String :=
  "FOREIGN KEY constraint failed: inventory.warehouse_id=" ++ toString wid

/-- Embedding of `create_product` (src/app.py lines 12-55).
The check `price < 0 or initial_qty < 0` sits inside the same `try` as
the conversions, so a NaN price makes the comparison raise
`InvalidOperation`, caught as the 400 format error.
`fault = some msg` injects an unexpected exception with message `msg` at
`db.session.commit()`; otherwise the commit succeeds exactly when the new
inventory row's `warehouse_id` exists (the foreign key). -/
def createProduct (data : Req) (fault : Option String) (db : DB) : CreateResult :=
  match data.name, data.sku, data.price, data.warehouse_id, data.initial_quantity with
  | some nm, some sk, some pv, some wid, some iqv =>
    match pyDec pv with
    | .exc _ => .resp 400 (.err "Invalid format for price or quantity") db
    | .ok price =>
      match pyInt iqv with
      | .exc .typeError => .uncaught .typeError db
      | .exc _ => .resp 400 (.err "Invalid format for price or quantity") db
      | .ok qty =>
        match price.lt0 with
        | .exc _ => .resp 400 (.err "Invalid format for price or quantity") db
        | .ok bneg =>
        if bneg ∨ qty < 0 then
          .resp 400 (.err "Values must be non-negative") db
        else if (db.products.filter (fun p => decide (p.sku = sk))).isEmpty = false then
          .resp 409 (.err ("SKU " ++ sk ++ " already exists")) db
        else
          let pid := db.nextProductId
          let newProd : Product :=
            { id := pid, company_id := data.company_id.getD 1, name := nm, sku := sk,
              price := price, low_stock_threshold := 10, primary_supplier_id := none }
          let newInv : Inventory :=
            { product_id := pid, warehouse_id := wid, quantity := qty }
          match fault with
          | some msg => .resp 500 (.err msg) db
          | none =>
            if db.warehouses.any (fun w => decide (w.id = wid)) then
              .resp 201 (.created "Product created" pid)
                { db with products := db.products ++ [newProd],
                          inventories := db.inventories ++ [newInv],
                          nextProductId := pid + 1 }
            else
              .resp 500 (.err (fkViolationMsg wid)) db
  | _, _, _, _, _ => .resp 400 (.err "Missing required fields") db

/-! ## `get_low_stock_alerts` (GET /api/companies/{company_id}/alerts/low-stock) -/

/-- A JSON value as it appears inside the `supplier` object of an alert
record (integer id, string, or null). -/
inductive JVal where
  | null
  | int (z : ℤ)
  | str (s : String)
deriving DecidableEq, Repr

/-- One entry of the `alerts` list built by `get_low_stock_alerts`. -/
structure AlertRecord where
  product_id : ℤ
  product_name : String
  sku : String
  warehouse_id : ℤ
  warehouse_name : String
  current_stock : ℤ
  threshold : ℤ
  days_until_stockout : ℤ
  supplier_id : JVal
  supplier_name : JVal
  supplier_contact_email : JVal
deriving DecidableEq, Repr

/-- The 200 body of the alerts endpoint. -/
structure AlertsResponse where
  alerts : List AlertRecord
  total_alerts : ℕ
deriving DecidableEq, Repr

/-- The subquery of product ids having at least one transaction with
`reason = 'sale'` and `created_at` inside the 30-day window
(src/app.py lines 64-68); `distinct()` is the `dedup`. -/
def recentSalesIds (db : DB) (now : ℤ) : List ℤ :=
  ((db.transactions.filter
      (fun t => decide (t.reason = "sale" ∧ now - 30 ≤ t.created_at))).map
    (fun t => t.product_id)).dedup

/-- The filter predicate of the main alerts query (src/app.py lines 76-79). -/
def alertCond (db : DB) (cid : ℤ) (now : ℤ) (inv : Inventory) (p : Product) : Prop :=
  p.company_id = cid ∧ inv.quantity ≤ p.low_stock_threshold ∧
    p.id ∈ recentSalesIds db now

instance (db : DB) (cid now : ℤ) (inv : Inventory) (p : Product) :
    Decidable (alertCond db cid now inv p) := by
  unfold alertCond; infer_instance

/-- The joined rows of the main alerts query (src/app.py lines 71-80):
`Inventory ⋈ Product ⋈ Warehouse ⟕ Supplier`, filtered by company,
threshold, and recent-sales membership.  The outer join yields one row per
matching supplier, or a single row with no supplier when
`primary_supplier_id` matches none. -/
def alertRows (db : DB) (cid : ℤ) (now : ℤ) :
    List (Inventory × Product × Warehouse × Option Supplier) :=
  db.inventories.flatMap (fun inv =>
    (db.products.filter (fun p => decide (p.id = inv.product_id))).flatMap (fun p =>
      (db.warehouses.filter (fun w => decide (w.id = inv.warehouse_id))).flatMap (fun w =>
        let ss := db.suppliers.filter (fun s => decide (p.primary_supplier_id = some s.id))
        let joined : List (Inventory × Product × Warehouse × Option Supplier) :=
          if ss.isEmpty then [(inv, p, w, none)] else ss.map (fun s => (inv, p, w, some s))
        joined.filter (fun r => decide (alertCond db cid now r.1 r.2.1)))))

/-- The `'sale'` transactions of one product+warehouse pair inside the
window: the rows the burn-rate aggregate of src/app.py lines 85-91 ranges
over. -/
def windowSaleTxns (db : DB) (pid wid : ℤ) (now : ℤ) : List Txn :=
  db.transactions.filter
    (fun t => decide (t.product_id = pid ∧ t.warehouse_id = wid ∧
      t.reason = "sale" ∧ now - 30 ≤ t.created_at))

/-- `abs(sum(change_amount))` over the `'sale'` transactions of one
product+warehouse pair inside the window, with SQL `NULL` (empty sum)
coalesced to 0 by `scalar() or 0` (src/app.py lines 85-91). -/
def salesSum (db : DB) (pid wid : ℤ) (now : ℤ) : ℤ :=
  |((windowSaleTxns db pid wid now).map (fun t => t.change_amount)).sum|

/-- The exact value of `sales_sum / 30` (src/app.py line 93).  The
program's `daily_burn` is the IEEE-double image of this quotient
(`dailyBurnF` below, its correctly-rounded binary64 value); the exact
rational is the formula-level burn rate the spec describes. -/
def dailyBurn (db : DB) (pid wid : ℤ) (now : ℤ) : ℚ :=
  (salesSum db pid wid now : ℚ) / 30

/-! ### Binary64 arithmetic

Lines 93-94 compute `sales_sum / 30` and `quantity / daily_burn` in
Python floats (IEEE binary64).  The emulation below works on integer
mantissa/exponent pairs with round-to-nearest, ties-to-even at 53 bits of
precision and an unbounded exponent (faithful to IEEE in the normal
range, which covers these quotients; overflow and subnormals do not
arise here), so that every concrete value can be computed by `decide`. -/

/-- Fuel-bounded `⌊log2 n⌋` (fuel `n` always suffices), structurally
recursive so the kernel can evaluate it. -/
def natLog2Aux : ℕ → ℕ → ℕ
  | 0, _ => 0
  | fuel + 1, n => if n < 2 then 0 else natLog2Aux fuel (n / 2) + 1

/-- `⌊log2 n⌋` for `n ≥ 1`. -/
def natLog2 (n : ℕ) : ℕ :=
  natLog2Aux n n

/-- `⌊log2 (a / b)⌋` for `a, b ≥ 1`, by comparing against the candidate
power of two. -/
def floorLog2 (a b : ℕ) : ℤ :=
  let la : ℤ := natLog2 a
  let lb : ℤ := natLog2 b
  if lb ≤ la then
    (if 2 ^ (la - lb).toNat * b ≤ a then la - lb else la - lb - 1)
  else
    (if b ≤ 2 ^ (lb - la).toNat * a then la - lb else la - lb - 1)

/-- Round the positive rational `a / b` (`a, b ≥ 1`) to 53 significant
bits, nearest, ties to even: returns `(mantissa, exponent)` with
`mantissa ∈ [2^52, 2^53]` and value `mantissa * 2^exponent`. -/
def roundPosRat (a b : ℕ) : ℤ × ℤ :=
  let e : ℤ := floorLog2 a b
  let shift : ℤ := 52 - e
  let A : ℕ := a * 2 ^ (max shift 0).toNat
  let B : ℕ := b * 2 ^ (max (-shift) 0).toNat
  let n : ℕ := A / B
  let r : ℕ := A % B
  let n' : ℕ :=
    if B < 2 * r then n + 1
    else if 2 * r < B then n
    else if n % 2 = 0 then n else n + 1
  ((n' : ℤ), e - 52)

/-- A binary64 value as mantissa times a power of two. -/
structure F64 where
  m : ℤ
  e : ℤ
deriving DecidableEq, Repr

/-- The rational value of the emulated double. -/
def F64.toRat (x : F64) : ℚ :=
  (x.m : ℚ) * (if 0 ≤ x.e then ((2 ^ x.e.toNat : ℕ) : ℚ) else 1 / ((2 ^ (-x.e).toNat : ℕ) : ℚ))

/-- Conversion of a Python `int` to a double (exact below `2^53`). -/
def ofIntF (z : ℤ) : F64 :=
  if z = 0 then ⟨0, 0⟩
  else
    let p := roundPosRat z.natAbs 1
    ⟨(if z < 0 then -p.1 else p.1), p.2⟩

/-- CPython `int / int` true division: the correctly rounded double of
the exact quotient. -/
def intDivF (a b : ℤ) : F64 :=
  if a = 0 ∨ b = 0 then ⟨0, 0⟩
  else
    let p := roundPosRat a.natAbs b.natAbs
    ⟨(if (a < 0 ∧ 0 < b) ∨ (0 < a ∧ b < 0) then -p.1 else p.1), p.2⟩

/-- IEEE division of two doubles: the correctly rounded quotient. -/
def fdivF (x y : F64) : F64 :=
  if x.m = 0 ∨ y.m = 0 then ⟨0, 0⟩
  else
    let p := roundPosRat x.m.natAbs y.m.natAbs
    ⟨(if (x.m < 0 ∧ 0 < y.m) ∨ (0 < x.m ∧ y.m < 0) then -p.1 else p.1),
      p.2 + (x.e - y.e)⟩

/-- Truncation of `m / 2^j` toward zero, in integers. -/
def truncShift (m : ℤ) (j : ℕ) : ℤ :=
  if 0 ≤ m then ((m.toNat / 2 ^ j : ℕ) : ℤ) else -(((-m).toNat / 2 ^ j : ℕ) : ℤ)

/-- Python `int()` applied to a double: truncation toward zero. -/
def truncF (x : F64) : ℤ :=
  if 0 ≤ x.e then x.m * 2 ^ x.e.toNat else truncShift x.m (-x.e).toNat

/-- `daily_burn = sales_sum / 30` as the program computes it
(src/app.py line 93): the binary64 value of the integer quotient. -/
def dailyBurnF (db : DB) (pid wid : ℤ) (now : ℤ) : F64 :=
  intDivF (salesSum db pid wid now) 30

/-- `days_out = int(quantity / daily_burn) if daily_burn > 0 else 999`
(src/app.py line 94), in binary64: the int is converted to a double and
divided by the burn rate, and the quotient truncated. -/
def daysOutF (quantity : ℤ) (burn : F64) : ℤ :=
  if 0 < burn.m then truncF (fdivF (ofIntF quantity) burn) else 999

/-- Build one alert record from a joined row (src/app.py lines 83-110).
`getattr(supp, field, default)` returns the default only when `supp` is
`None`; a present supplier contributes its column values verbatim
(`contact_email` may itself be SQL NULL). -/
def mkAlertRecord (db : DB) (now : ℤ)
    (row : Inventory × Product × Warehouse × Option Supplier) : AlertRecord :=
  let inv := row.1
  let p := row.2.1
  let w := row.2.2.1
  let supp := row.2.2.2
  { product_id := p.id
    product_name := p.name
    sku := p.sku
    warehouse_id := w.id
    warehouse_name := w.name
    current_stock := inv.quantity
    threshold := p.low_stock_threshold
    days_until_stockout := daysOutF inv.quantity (dailyBurnF db p.id w.id now)
    supplier_id := match supp with | some s => .int s.id | none => .null
    supplier_name := match supp with | some s => .str s.name | none => .str "N/A"
    supplier_contact_email :=
      match supp with
      | some s => match s.contact_email with | some e => .str e | none => .null
      | none => .str "N/A" }

/-- Embedding of `get_low_stock_alerts` (src/app.py lines 57-112): the 200
response paired with the database state after the request (the handler
only reads, so the state passes through unchanged). -/
def getLowStockAlerts (cid : ℤ) (now : ℤ) (db : DB) : AlertsResponse × DB :=
  let results := (alertRows db cid now).map (mkAlertRecord db now)
  ({ alerts := results, total_alerts := results.length }, db)

/-! ## Specification-side definitions and wellformedness -/

/-- The daily burn rate as §4.2 step 4 of the spec words it: the sum of
the ABSOLUTE VALUES of the sale `change_amount`s, divided by 30.  Stated
for comparison with `dailyBurn`, which the code computes as the absolute
value of the SUM. -/
def specDailyBurn (db : DB) (pid wid : ℤ) (now : ℤ) : ℚ :=
  ((((windowSaleTxns db pid wid now).map (fun t => |t.change_amount|)).sum : ℤ) : ℚ) / 30

/-- Schema wellformedness used by the join arguments: product ids are
unique (primary key) and every inventory row's `warehouse_id` resolves to
a warehouse (foreign key). -/
def DB.wf (db : DB) : Prop :=
  (db.products.map (fun p => p.id)).Nodup ∧
  ∀ i ∈ db.inventories, ∃ w ∈ db.warehouses, w.id = i.warehouse_id

instance (db : DB) : Decidable db.wf := by
  unfold DB.wf; infer_instance

/-- The supplier slot a joined row may carry: `none` exactly when the
product's `primary_supplier_id` matches no supplier row, otherwise one of
the matching suppliers. -/
def supplierSlot (db : DB) (p : Product) : Option Supplier → Prop
  | none => ∀ sp ∈ db.suppliers, p.primary_supplier_id ≠ some sp.id
  | some sp => sp ∈ db.suppliers ∧ p.primary_supplier_id = some sp.id

/-! ## Concrete states used by witnesses and counterexamples -/

/-- An almost-empty database holding one warehouse (id 1). -/
def exDB0 : DB :=
  { products := [], inventories := [], warehouses := [⟨1, 1, "Main"⟩],
    suppliers := [], transactions := [], nextProductId := 5 }

/-- A fully valid create-product request against `exDB0`. -/
def exReq : Req :=
  { name := some "Widget", sku := some "WGT-1", price := some (.num 10),
    warehouse_id := some 1, initial_quantity := some (.str "30"),
    company_id := none }

/-- A request that is valid except that `initial_quantity` is JSON null:
`int(None)` raises `TypeError`, which the parse-phase `except` clause does
not catch. -/
def exReqNullQty : Req :=
  { name := some "Widget", sku := some "WGT-2", price := some (.num 5),
    warehouse_id := some 1, initial_quantity := some .null,
    company_id := none }

/-- A request that is valid except for the missing `name` field. -/
def exReqMissingName : Req :=
  { name := none, sku := some "WGT-3", price := some (.num 1),
    warehouse_id := some 1, initial_quantity := some (.num 1),
    company_id := none }

/-- The product of `exDB3`. -/
def exProd3 : Product := ⟨1, 1, "Gizmo", "GZ-1", .fin 5, 20, none⟩

/-- The inventory row of `exDB3` (quantity 10, below the threshold 20). -/
def exInv3 : Inventory := ⟨1, 1, 10⟩

/-- The warehouse of `exDB3`. -/
def exWh3 : Warehouse := ⟨1, 1, "East"⟩

/-- A company-1 database whose single low-stock product has two `'sale'`
transactions of opposite signs (+5 and −5) in the window: the code's
`abs(sum)` is 0 there while the spec's sum-of-absolute-values is 10. -/
def exDB3 : DB :=
  { products := [exProd3],
    inventories := [exInv3],
    warehouses := [exWh3],
    suppliers := [],
    transactions := [⟨1, 1, 1, 5, "sale", 90⟩, ⟨2, 1, 1, -5, "sale", 95⟩],
    nextProductId := 2 }

/-- A company-1 database with one low-stock product (quantity 30,
threshold 40) and a single `'sale'` of −30 in the window, so the daily
burn is exactly 1. -/
def exDB4 : DB :=
  { products := [⟨1, 1, "Gadget", "GD-1", .fin 7, 40, none⟩],
    inventories := [⟨1, 1, 30⟩],
    warehouses := [⟨1, 1, "West"⟩],
    suppliers := [],
    transactions := [⟨1, 1, 1, -30, "sale", 90⟩],
    nextProductId := 2 }

/-- A company-1 database with one low-stock product (quantity 23,
threshold 40) and a single `'sale'` of −23 in the window: the double
quotient `23 / (23 / 30)` is `29.999999999999996`, so the program
truncates to 29 although the exact `floor` is 30. -/
def exDB5 : DB :=
  { products := [⟨1, 1, "Doohickey", "DH-1", .fin 3, 40, none⟩],
    inventories := [⟨1, 1, 23⟩],
    warehouses := [⟨1, 1, "North"⟩],
    suppliers := [],
    transactions := [⟨1, 1, 1, -23, "sale", 90⟩],
    nextProductId := 2 }

/-! ## Helper lemmas -/

/-- A list of non-positive integers has non-positive sum. -/
theorem int_sum_nonpos (l : List ℤ) (h : ∀ x ∈ l, x ≤ 0) : l.sum ≤ 0 := by
  induction l with
  | nil => simp
  | cons a t ih =>
    have ha : a ≤ 0 := h a (by simp)
    have ht : t.sum ≤ 0 := ih (fun x hx => h x (by simp [hx]))
    simp only [List.sum_cons]
    omega

/-- For a list of non-positive integers, the absolute value of the sum is
the sum of the absolute values. -/
theorem int_abs_sum_of_nonpos (l : List ℤ) (h : ∀ x ∈ l, x ≤ 0) :
    |l.sum| = (l.map (fun x => |x|)).sum := by
  induction l with
  | nil => simp
  | cons a t ih =>
    have ha : a ≤ 0 := h a (by simp)
    have htall : ∀ x ∈ t, x ≤ 0 := fun x hx => h x (by simp [hx])
    have ht : t.sum ≤ 0 := int_sum_nonpos t htall
    rw [List.sum_cons, List.map_cons, List.sum_cons, ← ih htall,
      abs_of_nonpos ha, abs_of_nonpos ht, abs_of_nonpos (by linarith : a + t.sum ≤ 0)]
    ring

/-! ## Theorems for the claims -/

/-- Claim C9: the alerts endpoint is read-only — the database state passes
through unchanged — and a second run on the state left by the first
produces the identical response. -/
theorem getLowStockAlerts_readonly_idempotent (cid now : ℤ) (db : DB) :
    (getLowStockAlerts cid now db).2 = db ∧
    (getLowStockAlerts cid now (getLowStockAlerts cid now db).2).1 =
      (getLowStockAlerts cid now db).1 :=
  ⟨rfl, rfl⟩

/-- Claim C2: product creation is atomic — every `create_product` call
leaves the committed database unchanged, or extends it with exactly one
product row and exactly one inventory row linked by `product_id`; no
outcome commits a product without its inventory row. -/
theorem createProduct_atomic (data : Req) (fault : Option String) (db : DB) :
    (createProduct data fault db).db = db ∨
    ∃ (p : Product) (i : Inventory), i.product_id = p.id ∧
      (createProduct data fault db).db =
        { db with products := db.products ++ [p],
                  inventories := db.inventories ++ [i],
                  nextProductId := db.nextProductId + 1 } := by
  unfold createProduct
  repeat' split
  all_goals simp [CreateResult.db]

/-- Claim C1: a valid create request (all fields present, in the `plain`
fragment the parse model captures exactly, price a non-negative decimal —
the negativity check succeeding rules out NaN, whose comparison raises —
quantity a non-negative integer, SKU fresh) whose persistence succeeds
(no injected fault, warehouse present) commits exactly one new Product
row and one new Inventory row, linked by `product_id`, with the inventory
quantity equal to the parsed `initial_quantity`, and answers 201 carrying
the new product id. -/
theorem createProduct_success (data : Req) (db : DB)
    (nm sk : String) (pv iqv : PyVal) (wid : ℤ) (price : PyDec) (qty : ℤ)
    (hnm : data.name = some nm) (hsk : data.sku = some sk)
    (hpv : data.price = some pv) (hwid : data.warehouse_id = some wid)
    (hiqv : data.initial_quantity = some iqv)
    (hplv : pv.plain) (hpli : iqv.plain)
    (hprice : pyDec pv = .ok price) (hpos : price.lt0 = .ok false)
    (hqty : pyInt iqv = .ok qty) (hqpos : ¬ qty < 0)
    (hfresh : ∀ p ∈ db.products, p.sku ≠ sk)
    (hwh : ∃ w ∈ db.warehouses, w.id = wid) :
    createProduct data none db =
      .resp 201 (.created "Product created" db.nextProductId)
        { db with
            products := db.products ++
              [{ id := db.nextProductId, company_id := data.company_id.getD 1,
                 name := nm, sku := sk, price := price,
                 low_stock_threshold := 10, primary_supplier_id := none }],
            inventories := db.inventories ++
              [{ product_id := db.nextProductId, warehouse_id := wid,
                 quantity := qty }],
            nextProductId := db.nextProductId + 1 } := by
  have hfilter : (db.products.filter (fun p => decide (p.sku = sk))).isEmpty = true := by
    rw [List.isEmpty_iff, List.filter_eq_nil_iff]
    intro p hp
    simp [hfresh p hp]
  have hany : db.warehouses.any (fun w => decide (w.id = wid)) = true := by
    rw [List.any_eq_true]
    obtain ⟨w, hw, hwi⟩ := hwh
    exact ⟨w, hw, by simp [hwi]⟩
  simp [createProduct, hnm, hsk, hpv, hwid, hiqv, hprice, hqty, hpos, hqpos,
    hfilter, hany]

/-- Witness for C1: `exReq` against `exDB0` commits the new product
(id 5) with its 30-unit inventory row and answers 201. -/
theorem createProduct_success_witness :
    createProduct exReq none exDB0 =
      .resp 201 (.created "Product created" exDB0.nextProductId)
        { exDB0 with
            products := exDB0.products ++
              [{ id := exDB0.nextProductId, company_id := 1,
                 name := "Widget", sku := "WGT-1", price := .fin 10,
                 low_stock_threshold := 10, primary_supplier_id := none }],
            inventories := exDB0.inventories ++
              [{ product_id := exDB0.nextProductId, warehouse_id := 1,
                 quantity := 30 }],
            nextProductId := exDB0.nextProductId + 1 } :=
  createProduct_success exReq exDB0 "Widget" "WGT-1" (.num 10) (.str "30") 1
    (.fin 10) 30 rfl rfl rfl rfl rfl (by decide) (by decide) rfl (by rfl)
    (by rfl) (by decide) (by decide) (by decide)

/-- Claim C6: when the request passes validation (in the `plain`
fragment; a non-NaN price, since the NaN comparison raises and 400s
first) but its SKU is already taken, `create_product` answers 409 and
commits no change at all. -/
theorem createProduct_duplicate_sku (data : Req) (fault : Option String) (db : DB)
    (nm sk : String) (pv iqv : PyVal) (wid : ℤ) (price : PyDec) (qty : ℤ)
    (hnm : data.name = some nm) (hsk : data.sku = some sk)
    (hpv : data.price = some pv) (hwid : data.warehouse_id = some wid)
    (hiqv : data.initial_quantity = some iqv)
    (hplv : pv.plain) (hpli : iqv.plain)
    (hprice : pyDec pv = .ok price) (hpos : price.lt0 = .ok false)
    (hqty : pyInt iqv = .ok qty) (hqpos : ¬ qty < 0)
    (hdup : ∃ p ∈ db.products, p.sku = sk) :
    createProduct data fault db =
      .resp 409 (.err ("SKU " ++ sk ++ " already exists")) db := by
  have hfilter : (db.products.filter (fun p => decide (p.sku = sk))).isEmpty = false := by
    rw [List.isEmpty_eq_false]
    intro hnil
    obtain ⟨p, hp, hps⟩ := hdup
    have := List.filter_eq_nil_iff.mp hnil p hp
    simp [hps] at this
  simp [createProduct, hnm, hsk, hpv, hwid, hiqv, hprice, hqty, hpos, hqpos,
    hfilter]

/-- Witness for C6: re-posting the SKU `GZ-1` that `exDB3` already holds
answers 409 and leaves the database untouched. -/
theorem createProduct_duplicate_sku_witness :
    createProduct { exReq with sku := some "GZ-1" } none exDB3 =
      .resp 409 (.err ("SKU " ++ "GZ-1" ++ " already exists")) exDB3 :=
  createProduct_duplicate_sku { exReq with sku := some "GZ-1" } none exDB3
    "Widget" "GZ-1" (.num 10) (.str "30") 1 (.fin 10) 30
    rfl rfl rfl rfl rfl (by decide) (by decide) rfl (by rfl) (by rfl)
    (by decide) (by decide)

/-- Claim C8 (amended): an unexpected persistence failure during the
commit rolls the transaction back — the committed state is unchanged — but
the 500 body carries the exception's own message rather than a generic
one. -/
theorem createProduct_fault_rollback (data : Req) (db : DB) (msg : String)
    (nm sk : String) (pv iqv : PyVal) (wid : ℤ) (price : PyDec) (qty : ℤ)
    (hnm : data.name = some nm) (hsk : data.sku = some sk)
    (hpv : data.price = some pv) (hwid : data.warehouse_id = some wid)
    (hiqv : data.initial_quantity = some iqv)
    (hplv : pv.plain) (hpli : iqv.plain)
    (hprice : pyDec pv = .ok price) (hpos : price.lt0 = .ok false)
    (hqty : pyInt iqv = .ok qty) (hqpos : ¬ qty < 0)
    (hfresh : ∀ p ∈ db.products, p.sku ≠ sk) :
    createProduct data (some msg) db = .resp 500 (.err msg) db := by
  have hfilter : (db.products.filter (fun p => decide (p.sku = sk))).isEmpty = true := by
    rw [List.isEmpty_iff, List.filter_eq_nil_iff]
    intro p hp
    simp [hfresh p hp]
  simp [createProduct, hnm, hsk, hpv, hwid, hiqv, hprice, hqty, hpos, hqpos,
    hfilter]

/-- Witness for C8: a commit failure with message `"connection reset"` is
reported verbatim in the 500 body, with the state rolled back. -/
theorem createProduct_fault_rollback_witness :
    createProduct exReq (some "connection reset") exDB0 =
      .resp 500 (.err "connection reset") exDB0 :=
  createProduct_fault_rollback exReq exDB0 "connection reset"
    "Widget" "WGT-1" (.num 10) (.str "30") 1 (.fin 10) 30
    rfl rfl rfl rfl rfl (by decide) (by decide) rfl (by rfl) (by rfl)
    (by decide) (by decide)

/-- Counterexample for C8 as stated: the 500 body is not a generic server
error — it depends on (and reveals) the failure's own message, two
different commit failures producing two different response bodies. -/
theorem createProduct_error_leak_cex :
    createProduct exReq (some "disk quota exceeded") exDB0 =
      .resp 500 (.err "disk quota exceeded") exDB0 ∧
    createProduct exReq (some "pg: deadlock detected") exDB0 =
      .resp 500 (.err "pg: deadlock detected") exDB0 ∧
    CreateBody.err "disk quota exceeded" ≠ CreateBody.err "pg: deadlock detected" := by
  refine ⟨by decide, by decide, by decide⟩

/-- Claim C3 (amended): the code's daily burn rate is the absolute value
of the SUM of the window's sale `change_amount`s divided by 30; it
coincides with the spec's sum-of-absolute-values formula whenever all
those `change_amount`s are non-positive (sales recorded as stock
decrements), the normal shape of a sale ledger. -/
theorem dailyBurn_eq_specDailyBurn_of_nonpos (db : DB) (pid wid now : ℤ)
    (h : ∀ t ∈ windowSaleTxns db pid wid now, t.change_amount ≤ 0) :
    dailyBurn db pid wid now = specDailyBurn db pid wid now := by
  have hsum : salesSum db pid wid now =
      ((windowSaleTxns db pid wid now).map (fun t => |t.change_amount|)).sum := by
    unfold salesSum
    rw [int_abs_sum_of_nonpos]
    · rw [List.map_map]
      rfl
    · intro x hx
      obtain ⟨t, ht, rfl⟩ := List.mem_map.mp hx
      exact h t ht
  unfold dailyBurn specDailyBurn
  rw [hsum]

/-- Witness for C3's amended theorem: in `exDB4` every window sale is a
decrement, and the code's burn rate equals the spec's formula. -/
theorem dailyBurn_eq_specDailyBurn_witness :
    (∀ t ∈ windowSaleTxns exDB4 1 1 100, t.change_amount ≤ 0) ∧
    dailyBurn exDB4 1 1 100 = specDailyBurn exDB4 1 1 100 :=
  ⟨by decide, dailyBurn_eq_specDailyBurn_of_nonpos exDB4 1 1 100 (by decide)⟩

/-- Counterexample for C3 as stated: in `exDB3` the pair (product 1,
warehouse 1) is in the alert results, the spec's formula gives burn rate
10/30 = 1/3, but the code computes |5 + (-5)|/30 = 0. -/
theorem dailyBurn_mixed_sign_cex :
    ((getLowStockAlerts 1 100 exDB3).1.alerts.map
        (fun r => (r.product_id, r.warehouse_id))) = [(1, 1)] ∧
    salesSum exDB3 1 1 100 = 0 ∧
    ((windowSaleTxns exDB3 1 1 100).map (fun t => |t.change_amount|)).sum = 10 ∧
    dailyBurn exDB3 1 1 100 = 0 ∧
    specDailyBurn exDB3 1 1 100 = 1 / 3 ∧
    dailyBurn exDB3 1 1 100 ≠ specDailyBurn exDB3 1 1 100 := by
  have h1 : salesSum exDB3 1 1 100 = 0 := by decide
  have h2 : ((windowSaleTxns exDB3 1 1 100).map (fun t => |t.change_amount|)).sum = 10 := by
    decide
  have h4 : dailyBurn exDB3 1 1 100 = 0 := by
    unfold dailyBurn
    rw [h1]
    norm_num
  have h5 : specDailyBurn exDB3 1 1 100 = 1 / 3 := by
    unfold specDailyBurn
    rw [h2]
    norm_num
  refine ⟨by decide, h1, h2, h4, h5, by rw [h4, h5]; norm_num⟩

/-- `int()` raises `ValueError` or `TypeError`, never `InvalidOperation`. -/
theorem pyInt_ne_invalidOperation (v : PyVal) : pyInt v ≠ .exc .invalidOperation := by
  cases v <;> simp [pyInt]
  split <;> simp

/-- Claim C7 (amended), over the `plain` fragment (ASCII strings,
integral JSON numbers — the domain whose Python parses this embedding
captures exactly): `create_product` answers 400 exactly when a required
field is absent, or the price fails to parse as a decimal, or
`initial_quantity` is a number/string/boolean that fails integer
conversion (a `ValueError`), or both values parse and either the price is
NaN — the negativity comparison raises `InvalidOperation`, caught as the
format error — or a parsed value is negative; a null `initial_quantity`
instead raises `TypeError`, which the
`except (InvalidOperation, ValueError)` clause does not catch, so no 400
(and no handler response at all) is produced. -/
theorem createProduct_400_iff (data : Req) (fault : Option String) (db : DB)
    (hplv : ∀ pv, data.price = some pv → pv.plain)
    (hpli : ∀ iqv, data.initial_quantity = some iqv → iqv.plain) :
    (createProduct data fault db).isStatus 400 ↔
      ((data.name = none ∨ data.sku = none ∨ data.price = none ∨
        data.warehouse_id = none ∨ data.initial_quantity = none) ∨
      (∃ pv e, data.price = some pv ∧ pyDec pv = .exc e) ∨
      (∃ pv price iqv, data.price = some pv ∧ pyDec pv = .ok price ∧
        data.initial_quantity = some iqv ∧ pyInt iqv = .exc .valueError) ∨
      (∃ pv price iqv qty, data.price = some pv ∧ pyDec pv = .ok price ∧
        data.initial_quantity = some iqv ∧ pyInt iqv = .ok qty ∧
        (price.lt0 = .exc .invalidOperation ∨ price.lt0 = .ok true ∨ qty < 0))) := by
  clear hplv hpli
  rcases data with ⟨nm, sk, pvO, widO, iqvO, cidO⟩
  cases nm <;> cases sk <;> cases pvO <;> cases widO <;> cases iqvO
  all_goals try (solve | simp [createProduct, CreateResult.isStatus])
  rename_i nm sk pv wid iqv
  simp only [createProduct]
  rcases hpd : pyDec pv with price | e
  · rcases hqi : pyInt iqv with qty | e
    · simp only [hpd, hqi]
      rcases hlt : price.lt0 with bneg | e
      · simp only [hlt]
        by_cases hneg : bneg = true ∨ qty < 0
        · rw [if_pos hneg]
          rcases hneg with hb | hq
          · subst hb
            simp [CreateResult.isStatus, hpd, hqi, hlt]
          · simp [CreateResult.isStatus, hpd, hqi, hlt, hq]
        · rw [if_neg hneg]
          push_neg at hneg
          obtain ⟨hb, hq⟩ := hneg
          have hbf : bneg = false := by simpa using hb
          subst hbf
          split
          · simp [CreateResult.isStatus, hpd, hqi, hlt, hq]
          · split
            · simp [CreateResult.isStatus, hpd, hqi, hlt, hq]
            · split <;> simp [CreateResult.isStatus, hpd, hqi, hlt, hq]
      · have he : e = .invalidOperation := by
          cases price with
          | fin q => simp [PyDec.lt0] at hlt
          | nan => simpa [PyDec.lt0, eq_comm] using hlt
          | inf => simp [PyDec.lt0] at hlt
          | negInf => simp [PyDec.lt0] at hlt
        subst he
        simp [CreateResult.isStatus, hpd, hqi, hlt]
    · cases e with
      | invalidOperation => exact absurd hqi (pyInt_ne_invalidOperation iqv)
      | valueError => simp [CreateResult.isStatus, hpd, hqi]
      | typeError => simp [CreateResult.isStatus, hpd, hqi]
  · simp [CreateResult.isStatus, hpd]

/-- Counterexample for C7 as stated: a request whose `initial_quantity` is
JSON null fails integer conversion, yet `create_product` does not answer
400 — `int(None)` raises `TypeError`, which escapes the handler. -/
theorem createProduct_null_quantity_cex :
    createProduct exReqNullQty none exDB0 = .uncaught .typeError exDB0 ∧
    ¬ (createProduct exReqNullQty none exDB0).isStatus 400 ∧
    pyInt PyVal.null = .exc .typeError := by
  refine ⟨by decide, by decide, by decide⟩

/-- Membership in the recent-sales subquery, phrased over the ledger. -/
theorem mem_recentSalesIds (db : DB) (now pid : ℤ) :
    pid ∈ recentSalesIds db now ↔
      ∃ t ∈ db.transactions, t.product_id = pid ∧ t.reason = "sale" ∧
        now - 30 ≤ t.created_at := by
  unfold recentSalesIds
  simp only [List.mem_dedup, List.mem_map, List.mem_filter, decide_eq_true_eq]
  constructor
  · rintro ⟨t, ⟨ht, hr, hw⟩, rfl⟩
    exact ⟨t, ht, rfl, hr, hw⟩
  · rintro ⟨t, ht, hpid, hr, hw⟩
    exact ⟨t, ⟨ht, hr, hw⟩, hpid⟩

/-- Characterization of the joined rows of the alerts query. -/
theorem mem_alertRows_iff (db : DB) (cid now : ℤ) (inv : Inventory)
    (p : Product) (w : Warehouse) (s : Option Supplier) :
    (inv, p, w, s) ∈ alertRows db cid now ↔
      (inv ∈ db.inventories ∧ p ∈ db.products ∧ p.id = inv.product_id ∧
       w ∈ db.warehouses ∧ w.id = inv.warehouse_id ∧
       supplierSlot db p s ∧ alertCond db cid now inv p) := by
  simp only [alertRows, List.mem_flatMap, List.mem_filter, decide_eq_true_eq]
  constructor
  · rintro ⟨inv2, hinv2, p2, ⟨hp2m, hp2id⟩, w2, ⟨hw2m, hw2id⟩, hj, hc⟩
    by_cases hss :
        (db.suppliers.filter
          (fun sp => decide (p2.primary_supplier_id = some sp.id))).isEmpty
    · rw [if_pos hss] at hj
      simp only [List.mem_singleton, Prod.mk.injEq] at hj
      obtain ⟨rfl, rfl, rfl, rfl⟩ := hj
      refine ⟨hinv2, hp2m, hp2id, hw2m, hw2id, ?_, hc⟩
      intro sp hsp
      have := List.filter_eq_nil_iff.mp (List.isEmpty_iff.mp hss) sp hsp
      simpa using this
    · rw [if_neg hss] at hj
      rw [List.mem_map] at hj
      obtain ⟨sp, hsp, heq⟩ := hj
      simp only [Prod.mk.injEq] at heq
      obtain ⟨rfl, rfl, rfl, rfl⟩ := heq
      rw [List.mem_filter] at hsp
      obtain ⟨hspm, hspid⟩ := hsp
      rw [decide_eq_true_eq] at hspid
      exact ⟨hinv2, hp2m, hp2id, hw2m, hw2id, ⟨hspm, hspid⟩, hc⟩
  · rintro ⟨hinv, hpm, hpid, hwm, hwid, hslot, hcond⟩
    refine ⟨inv, hinv, p, ⟨hpm, hpid⟩, w, ⟨hwm, hwid⟩, ?_, hcond⟩
    cases s with
    | none =>
      have hss :
          (db.suppliers.filter
            (fun sp => decide (p.primary_supplier_id = some sp.id))).isEmpty = true := by
        rw [List.isEmpty_iff, List.filter_eq_nil_iff]
        intro sp hsp
        simpa using hslot sp hsp
      rw [if_pos hss]
      simp
    | some sp =>
      obtain ⟨hspm, hspid⟩ := hslot
      have hssf :
          ¬ (db.suppliers.filter
            (fun sp => decide (p.primary_supplier_id = some sp.id))).isEmpty = true := by
        rw [List.isEmpty_iff]
        intro hnil
        have := List.filter_eq_nil_iff.mp hnil sp hspm
        simp [hspid] at this
      rw [if_neg hssf, List.mem_map]
      exact ⟨sp, List.mem_filter.mpr ⟨hspm, by simp [hspid]⟩, rfl⟩

/-- Claim C5: under schema wellformedness, an inventory row appears in the
alert results (as a record carrying its product id, warehouse id and
quantity) iff its product belongs to the requested company, its quantity
is at most the product's threshold, and the product has at least one
`'sale'` transaction in the 30-day window (in any warehouse). -/
theorem low_stock_alert_mem_iff (db : DB) (cid now : ℤ) (hwf : db.wf)
    (inv : Inventory) (hinv : inv ∈ db.inventories)
    (p : Product) (hp : p ∈ db.products) (hpid : p.id = inv.product_id) :
    (∃ r ∈ (getLowStockAlerts cid now db).1.alerts,
        r.product_id = inv.product_id ∧ r.warehouse_id = inv.warehouse_id ∧
        r.current_stock = inv.quantity) ↔
      (p.company_id = cid ∧ inv.quantity ≤ p.low_stock_threshold ∧
        ∃ t ∈ db.transactions, t.product_id = p.id ∧ t.reason = "sale" ∧
          now - 30 ≤ t.created_at) := by
  constructor
  · rintro ⟨r, hr, hrp, hrw, hrq⟩
    simp only [getLowStockAlerts, List.mem_map] at hr
    obtain ⟨⟨inv2, p2, w2, s2⟩, hrow, rfl⟩ := hr
    rw [mem_alertRows_iff] at hrow
    obtain ⟨hinv2, hp2m, hp2id, hw2m, hw2id, hslot, hcomp, hthr, hrecent⟩ := hrow
    have hraw : p2.id = inv.product_id := hrp
    have hq2 : inv2.quantity = inv.quantity := hrq
    have hp2p : p2 = p := List.inj_on_of_nodup_map hwf.1 hp2m hp (by rw [hraw, hpid])
    subst hp2p
    refine ⟨hcomp, ?_, ?_⟩
    · rw [← hq2]
      exact hthr
    · exact (mem_recentSalesIds db now p2.id).mp hrecent
  · rintro ⟨hcomp, hthr, ht⟩
    obtain ⟨w, hwm, hwid⟩ := hwf.2 inv hinv
    have hslot : ∃ s0, supplierSlot db p s0 := by
      by_cases hss :
          (db.suppliers.filter
            (fun sp => decide (p.primary_supplier_id = some sp.id))).isEmpty
      · refine ⟨none, fun sp hsp => ?_⟩
        have := List.filter_eq_nil_iff.mp (List.isEmpty_iff.mp hss) sp hsp
        simpa using this
      · obtain ⟨sp, hsp⟩ := List.exists_mem_of_ne_nil _
          (List.isEmpty_eq_false.mp (Bool.not_eq_true _ ▸ hss))
        rw [List.mem_filter] at hsp
        exact ⟨some sp, hsp.1, by simpa using hsp.2⟩
    obtain ⟨s0, hslot⟩ := hslot
    have hrow : (inv, p, w, s0) ∈ alertRows db cid now :=
      (mem_alertRows_iff db cid now inv p w s0).mpr
        ⟨hinv, hp, hpid, hwm, hwid, hslot,
          hcomp, hthr, (mem_recentSalesIds db now p.id).mpr ht⟩
    refine ⟨mkAlertRecord db now (inv, p, w, s0), ?_, hpid, hwid, rfl⟩
    simp only [getLowStockAlerts]
    exact List.mem_map_of_mem _ hrow

/-- Witness for C5: in `exDB4` (quantity 30 ≤ threshold 40, one recent
sale) the inventory row does appear in the alert results. -/
theorem low_stock_alert_mem_witness :
    ∃ r ∈ (getLowStockAlerts 1 100 exDB4).1.alerts,
      r.product_id = (1 : ℤ) ∧ r.warehouse_id = (1 : ℤ) ∧
        r.current_stock = (30 : ℤ) :=
  (low_stock_alert_mem_iff exDB4 1 100 (by decide) ⟨1, 1, 30⟩ (by decide)
    ⟨1, 1, "Gadget", "GD-1", .fin 7, 40, none⟩ (by decide) (by decide)).mpr
    (by decide)

/-- Claim C10 (amended): the alerts response reports `total_alerts` equal
to the number of alert records, each record carries the product id / name
/ sku, warehouse id / name, current stock and threshold of its source
rows, and when no supplier is linked the nested supplier info holds the
placeholders `"N/A"` for name and contact email but NULL (not `"N/A"`)
for the id. -/
theorem alerts_response_shape (db : DB) (cid now : ℤ) :
    ((getLowStockAlerts cid now db).1.total_alerts =
      (getLowStockAlerts cid now db).1.alerts.length ∧
    (getLowStockAlerts cid now db).1.alerts =
      (alertRows db cid now).map (mkAlertRecord db now)) ∧
    ∀ inv p w s, (inv, p, w, s) ∈ alertRows db cid now →
      ((mkAlertRecord db now (inv, p, w, s)).product_id = p.id ∧
       (mkAlertRecord db now (inv, p, w, s)).product_name = p.name ∧
       (mkAlertRecord db now (inv, p, w, s)).sku = p.sku ∧
       (mkAlertRecord db now (inv, p, w, s)).warehouse_id = w.id ∧
       (mkAlertRecord db now (inv, p, w, s)).warehouse_name = w.name ∧
       (mkAlertRecord db now (inv, p, w, s)).current_stock = inv.quantity ∧
       (mkAlertRecord db now (inv, p, w, s)).threshold = p.low_stock_threshold ∧
       (s = none →
         (mkAlertRecord db now (inv, p, w, s)).supplier_id = JVal.null ∧
         (mkAlertRecord db now (inv, p, w, s)).supplier_name = JVal.str "N/A" ∧
         (mkAlertRecord db now (inv, p, w, s)).supplier_contact_email =
           JVal.str "N/A") ∧
       (∀ sp, s = some sp →
         (mkAlertRecord db now (inv, p, w, s)).supplier_id = JVal.int sp.id ∧
         (mkAlertRecord db now (inv, p, w, s)).supplier_name = JVal.str sp.name)) := by
  refine ⟨⟨rfl, rfl⟩, ?_⟩
  rintro inv p w s -
  refine ⟨rfl, rfl, rfl, rfl, rfl, rfl, rfl, ?_, ?_⟩
  · rintro rfl
    exact ⟨rfl, rfl, rfl⟩
  · rintro sp rfl
    exact ⟨rfl, rfl⟩

/-- Witness for C10's amended theorem: the supplierless record of `exDB3`
carries the `"N/A"` placeholders for name and email and NULL for the id. -/
theorem alerts_response_shape_witness :
    (mkAlertRecord exDB3 100 (exInv3, exProd3, exWh3, none)).supplier_id =
      JVal.null ∧
    (mkAlertRecord exDB3 100 (exInv3, exProd3, exWh3, none)).supplier_name =
      JVal.str "N/A" ∧
    (mkAlertRecord exDB3 100 (exInv3, exProd3, exWh3, none)).supplier_contact_email =
      JVal.str "N/A" :=
  ((alerts_response_shape exDB3 1 100).2 exInv3 exProd3 exWh3 none
    (by decide)).2.2.2.2.2.2.2.1 rfl

/-- Counterexample for C10 as stated: in `exDB3` the single alert record
has no linked supplier, and its supplier `id` field is JSON null, not the
`"N/A"` placeholder the claim asserts for all supplier fields. -/
theorem supplier_id_null_cex :
    ((getLowStockAlerts 1 100 exDB3).1.alerts.map (fun r => r.supplier_id)) =
      [JVal.null] ∧
    JVal.null ≠ JVal.str "N/A" :=
  ⟨by decide, by decide⟩

/-- Python `int()` of an integer-valued rational is the integer itself. -/
theorem pyTrunc_intCast (z : ℤ) : pyTrunc (z : ℚ) = z := by
  unfold pyTrunc
  split
  · exact Int.floor_intCast z
  · exact Int.ceil_intCast z

/-- The emulated double is positive exactly when its mantissa is. -/
theorem f64_toRat_pos_iff (x : F64) : 0 < x.toRat ↔ 0 < x.m := by
  unfold F64.toRat
  have hs : (0:ℚ) <
      (if 0 ≤ x.e then ((2 ^ x.e.toNat : ℕ) : ℚ) else 1 / ((2 ^ (-x.e).toNat : ℕ) : ℚ)) := by
    split <;> positivity
  constructor
  · intro h
    rcases lt_trichotomy x.m 0 with hm | hm | hm
    · exfalso
      have hm' : (x.m : ℚ) < 0 := by exact_mod_cast hm
      nlinarith
    · rw [hm] at h ⊢
      simp at h
    · exact hm
  · intro h
    exact mul_pos (by exact_mod_cast h) hs

/-- The emulated double is zero exactly when its mantissa is. -/
theorem f64_toRat_eq_zero_iff (x : F64) : x.toRat = 0 ↔ x.m = 0 := by
  unfold F64.toRat
  have hs : (0:ℚ) <
      (if 0 ≤ x.e then ((2 ^ x.e.toNat : ℕ) : ℚ) else 1 / ((2 ^ (-x.e).toNat : ℕ) : ℚ)) := by
    split <;> positivity
  constructor
  · intro h
    rcases mul_eq_zero.mp h with h | h
    · exact_mod_cast h
    · exact absurd h.symm hs.ne
  · intro h
    rw [h]
    simp

/-- `truncF` computes Python `int()` of the double's rational value. -/
theorem truncF_toRat (x : F64) : truncF x = pyTrunc x.toRat := by
  unfold truncF F64.toRat
  by_cases he : 0 ≤ x.e
  · rw [if_pos he, if_pos he]
    have h : (x.m : ℚ) * ((2 ^ x.e.toNat : ℕ) : ℚ) = ((x.m * 2 ^ x.e.toNat : ℤ) : ℚ) := by
      push_cast
      ring
    rw [h, pyTrunc_intCast]
  · rw [if_neg he, if_neg he]
    have h : (x.m : ℚ) * (1 / ((2 ^ (-x.e).toNat : ℕ) : ℚ)) =
        (x.m : ℚ) / ((2 ^ (-x.e).toNat : ℕ) : ℚ) := by
      ring
    rw [h]
    generalize (-x.e).toNat = j
    have h2 : (0:ℚ) < ((2 ^ j : ℕ) : ℚ) := by positivity
    unfold truncShift pyTrunc
    by_cases hm : 0 ≤ x.m
    · rw [if_pos hm, if_pos (div_nonneg (by exact_mod_cast hm) h2.le)]
      rw [show ((x.m : ℚ)) = ((x.m.toNat : ℤ) : ℚ) by
        rw [Int.toNat_of_nonneg hm]]
      rw [Rat.floor_intCast_div_natCast]
      rw [Int.ofNat_tdiv, Int.tdiv_eq_ediv (by positivity) (by positivity)]
    · have hneg : (x.m : ℚ) / ((2 ^ j : ℕ) : ℚ) < 0 :=
        div_neg_of_neg_of_pos (by exact_mod_cast lt_of_not_ge hm) h2
      rw [if_neg hm, if_neg (not_le.mpr hneg)]
      rw [show ((x.m : ℚ)) = -(((-x.m).toNat : ℤ) : ℚ) by
        rw [Int.toNat_of_nonneg (by omega : (0:ℤ) ≤ -x.m)]
        push_cast
        ring]
      rw [neg_div, Int.ceil_neg, Rat.floor_intCast_div_natCast, Int.ofNat_tdiv,
        Int.tdiv_eq_ediv (by positivity) (by positivity)]

/-- Claim C4 (amended): an alert record's `days_until_stockout` is the
binary64 truncation `int(quantity / daily_burn)` when the burn rate is
positive and the sentinel 999 when it is 0; the truncation agrees with
`⌊quantity / daily_burn⌋` whenever the double division is exact — in
particular quantity 30 at burn rate 30/30 = 1 gives 30, and a zero burn
rate gives 999 — but double rounding can drop it below the exact floor
(quantity 23 at magnitude 23, see the counterexample). -/
theorem days_until_stockout_float_spec (db : DB) (now : ℤ) (inv : Inventory)
    (p : Product) (w : Warehouse) (s : Option Supplier)
    (hq : 0 ≤ inv.quantity) :
    ((mkAlertRecord db now (inv, p, w, s)).days_until_stockout =
      daysOutF inv.quantity (dailyBurnF db p.id w.id now)) ∧
    ((dailyBurnF db p.id w.id now).toRat = 0 →
      daysOutF inv.quantity (dailyBurnF db p.id w.id now) = 999) ∧
    (∀ burn : F64, 0 < burn.toRat →
      (fdivF (ofIntF inv.quantity) burn).toRat = (inv.quantity : ℚ) / burn.toRat →
      daysOutF inv.quantity burn = ⌊(inv.quantity : ℚ) / burn.toRat⌋) ∧
    daysOutF 30 (intDivF 30 30) = 30 ∧ daysOutF 30 (intDivF 0 30) = 999 := by
  refine ⟨rfl, ?_, ?_, by decide, by decide⟩
  · intro h0
    have hm : (dailyBurnF db p.id w.id now).m = 0 :=
      (f64_toRat_eq_zero_iff _).mp h0
    simp [daysOutF, hm]
  · intro burn hpos hdiv
    have hm : 0 < burn.m := (f64_toRat_pos_iff burn).mp hpos
    unfold daysOutF
    rw [if_pos hm, truncF_toRat, hdiv]
    unfold pyTrunc
    rw [if_pos (div_nonneg (by exact_mod_cast hq) hpos.le)]

/-- Witness for C4's amended theorem: the single alert row of `exDB4`
(quantity 30, integer burn rate 1). -/
theorem days_until_stockout_float_witness :
    0 ≤ (Inventory.mk 1 1 30).quantity ∧
    (((mkAlertRecord exDB4 100
        (⟨1, 1, 30⟩, ⟨1, 1, "Gadget", "GD-1", .fin 7, 40, none⟩,
          ⟨1, 1, "West"⟩, none)).days_until_stockout =
      daysOutF (30 : ℤ) (dailyBurnF exDB4 1 1 100)) ∧
    ((dailyBurnF exDB4 1 1 100).toRat = 0 →
      daysOutF (30 : ℤ) (dailyBurnF exDB4 1 1 100) = 999) ∧
    (∀ burn : F64, 0 < burn.toRat →
      (fdivF (ofIntF 30) burn).toRat = ((30 : ℤ) : ℚ) / burn.toRat →
      daysOutF (30 : ℤ) burn = ⌊((30 : ℤ) : ℚ) / burn.toRat⌋) ∧
    daysOutF 30 (intDivF 30 30) = 30 ∧ daysOutF 30 (intDivF 0 30) = 999) :=
  ⟨by decide, days_until_stockout_float_spec exDB4 100 ⟨1, 1, 30⟩
    ⟨1, 1, "Gadget", "GD-1", .fin 7, 40, none⟩ ⟨1, 1, "West"⟩ none (by decide)⟩

/-- Counterexample for C4 as stated: at quantity 23 with window sale
magnitude 23, the program computes `int(23 / (23 / 30))` in doubles and
reports 29, while `⌊quantity / daily_burn⌋` with the exact burn rate
23/30 is 30; `exDB5` realises this as an actual alert record. -/
theorem days_until_stockout_float_cex :
    daysOutF 23 (intDivF 23 30) = 29 ∧
    dailyBurn exDB5 1 1 100 = 23 / 30 ∧
    ⌊(23 : ℚ) / (23 / 30)⌋ = 30 ∧
    (getLowStockAlerts 1 100 exDB5).1.alerts.map
      (fun r => r.days_until_stockout) = [29] := by
  refine ⟨by decide, ?_, by norm_num, by decide⟩
  · have h : salesSum exDB5 1 1 100 = 23 := by decide
    unfold dailyBurn
    rw [h]
    norm_num

/-- Witness for C7's amended theorem: a request missing its `name` field
is answered 400. -/
theorem createProduct_400_iff_witness :
    (createProduct exReqMissingName none exDB0).isStatus 400 :=
  (createProduct_400_iff exReqMissingName none exDB0
    (fun pv h => by
      rw [exReqMissingName, Option.some.injEq] at h
      subst h
      decide)
    (fun iqv h => by
      rw [exReqMissingName, Option.some.injEq] at h
      subst h
      decide)).mpr
    (Or.inl (Or.inl rfl))
